import Mathlib

/-!
Verification of the Luminav Films backend media pipeline.

The JavaScript sources are shallowly embedded as Lean definitions:

* the slug derivation chain of src/unnamed/part_001 (video.service.js,
  toSafeSlug) and the inline copy in src/controller/video.controller.js;
* the HLS convert-and-upload pipelines of src/services/upload.service.js
  (convertAndUpload) and src/services/current.service.js
  (uploadTeaserAndConvert), with the external ffmpeg process and the S3
  uploads modelled by an environment recording their outcomes;
* the singleton current-film create path of src/services/current.service.js
  and its controller (addCurrentFilm);
* the query wrapper of src/config/db.config.js and the direct pool calls
  used by the other services;
* the admin login flow of src/unnamed/part_006 (admin.controller.js) and
  src/services/admin.service.js, with bcrypt comparison abstracted as an
  arbitrary boolean function.

JavaScript strings are modelled as Lean String; the character classes of
the regular expressions involved are restricted to ASCII (the titles,
emails and filenames handled by the service are ASCII in all documented
scenarios).
-/

namespace Luminav

/-! ## Character classes and string helpers (ASCII model of JS regexes) -/

/-- ASCII model of the JS whitespace class backslash-s
(space, tab, newline, carriage return, vertical tab, form feed). -/
def isWs (c : Char) : Bool :=
  decide (c.toNat = 32 ∨ c.toNat = 9 ∨ c.toNat = 10 ∨ c.toNat = 13 ∨
          c.toNat = 11 ∨ c.toNat = 12)

/-- The character class [a-z0-9_] kept by the final replace of the slug
derivation. -/
def isSlugChar (c : Char) : Bool :=
  decide ((97 ≤ c.toNat ∧ c.toNat ≤ 122) ∨ (48 ≤ c.toNat ∧ c.toNat ≤ 57) ∨
          c.toNat = 95)

/-- ASCII model of String.prototype.toLowerCase: map A-Z to a-z, leave
every other character unchanged. -/
def asciiToLower (c : Char) : Char :=
  if 65 ≤ c.toNat ∧ c.toNat ≤ 90 then Char.ofNat (c.toNat + 32) else c

/-- String.prototype.trim: drop whitespace from both ends. -/
def jsTrim (l : List Char) : List Char :=
  ((l.dropWhile isWs).reverse.dropWhile isWs).reverse

/-- The global replace of backslash-s+ by an underscore: every maximal run
of whitespace becomes a single underscore.  The boolean flag records
whether the previous character was part of a whitespace run. -/
def collapseWsAux : Bool → List Char → List Char
  | _, [] => []
  | prevWs, c :: rest =>
    if isWs c then
      if prevWs then collapseWsAux true rest
      else '_' :: collapseWsAux true rest
    else c :: collapseWsAux false rest

/-! ## The slug derivation (video.service.js toSafeSlug, and the identical
inline chain in video.controller.js uploadAndCreateVideo) -/

/-- The list-level slug chain: trim, toLowerCase, replace backslash-s+ by
an underscore, strip everything outside [a-z0-9_] — exactly the method
chain of toSafeSlug in video.service.js. -/
def toSafeSlugL (l : List Char) : List Char :=
  (collapseWsAux false ((jsTrim l).map asciiToLower)).filter isSlugChar

/-- toSafeSlug from video.service.js. -/
def toSafeSlug (s : String) : String :=
  String.mk (toSafeSlugL s.data)

/-- The inline slug computation of uploadAndCreateVideo in
video.controller.js: title.trim().toLowerCase() with the same two
replaces. -/
def controllerSlug (title : String) : String :=
  String.mk ((collapseWsAux false ((jsTrim title.data).map asciiToLower)).filter
    isSlugChar)

/-- The slug derivation as the spec words it (Glossary: "a lowercase,
whitespace-to-underscore, non-alphanumeric-stripped derivation of a
title"): trim the title, lowercase it, turn each whitespace run into one
underscore, then strip every character that is not a lowercase
alphanumeric or the underscore this derivation itself introduces. -/
def specSlug (s : String) : String :=
  String.mk ((collapseWsAux false ((jsTrim s.data).map asciiToLower)).filter
    isSlugChar)

/-! ## Identity lemmas on slug output characters -/

theorem dropWhile_of_forall_false {α : Type} {p : α → Bool} {l : List α}
    (h : ∀ c ∈ l, p c = false) : l.dropWhile p = l := by
  cases l with
  | nil => rfl
  | cons a t => simp [List.dropWhile_cons, h a (by simp)]

theorem filter_of_forall_true {α : Type} {p : α → Bool} {l : List α}
    (h : ∀ c ∈ l, p c = true) : l.filter p = l := by
  induction l with
  | nil => rfl
  | cons a t ih =>
    simp [List.filter_cons, h a (by simp),
      ih (fun c hc => h c (by simp [hc]))]

theorem jsTrim_of_no_ws {l : List Char} (h : ∀ c ∈ l, isWs c = false) :
    jsTrim l = l := by
  unfold jsTrim
  rw [dropWhile_of_forall_false h,
    dropWhile_of_forall_false (fun c hc => h c (List.mem_reverse.mp hc)),
    List.reverse_reverse]

theorem collapseWsAux_of_no_ws {l : List Char}
    (h : ∀ c ∈ l, isWs c = false) : ∀ b, collapseWsAux b l = l := by
  induction l with
  | nil => intro b; rfl
  | cons a t ih =>
    intro b
    have ha : isWs a = false := h a (by simp)
    have ht : ∀ c ∈ t, isWs c = false := fun c hc => h c (by simp [hc])
    simp [collapseWsAux, ha, ih ht]

theorem asciiToLower_eq_self {c : Char} (h : isSlugChar c = true) :
    asciiToLower c = c := by
  have hp : (97 ≤ c.toNat ∧ c.toNat ≤ 122) ∨
      (48 ≤ c.toNat ∧ c.toNat ≤ 57) ∨ c.toNat = 95 := of_decide_eq_true h
  unfold asciiToLower
  rw [if_neg (by omega)]

theorem isWs_eq_false_of_slug {c : Char} (h : isSlugChar c = true) :
    isWs c = false := by
  have hp : (97 ≤ c.toNat ∧ c.toNat ≤ 122) ∨
      (48 ≤ c.toNat ∧ c.toNat ≤ 57) ∨ c.toNat = 95 := of_decide_eq_true h
  exact decide_eq_false (by omega)

theorem map_asciiToLower_of_slug {l : List Char}
    (h : ∀ c ∈ l, isSlugChar c = true) : l.map asciiToLower = l := by
  induction l with
  | nil => rfl
  | cons a t ih =>
    simp [asciiToLower_eq_self (h a (by simp)),
      ih (fun c hc => h c (by simp [hc]))]

theorem mem_toSafeSlugL {l : List Char} {c : Char}
    (h : c ∈ toSafeSlugL l) : isSlugChar c = true := by
  unfold toSafeSlugL at h
  exact (List.mem_filter.mp h).2

theorem toSafeSlugL_idem (l : List Char) :
    toSafeSlugL (toSafeSlugL l) = toSafeSlugL l := by
  have hs : ∀ c ∈ toSafeSlugL l, isSlugChar c = true :=
    fun c hc => mem_toSafeSlugL hc
  have hw : ∀ c ∈ toSafeSlugL l, isWs c = false :=
    fun c hc => isWs_eq_false_of_slug (hs c hc)
  show (collapseWsAux false
      ((jsTrim (toSafeSlugL l)).map asciiToLower)).filter isSlugChar =
    toSafeSlugL l
  rw [jsTrim_of_no_ws hw, map_asciiToLower_of_slug hs,
    collapseWsAux_of_no_ws hw false, filter_of_forall_true hs]

/-! ## Manifest URL construction (video.service.js buildVideoUrl,
upload.service.js playlistUrl) -/

/-- The virtual-hosted S3 endpoint shared by every URL the services
build. -/
def awsHost (bucket region : String) : String :=
  "https://" ++ bucket ++ ".s3." ++ region ++ ".amazonaws.com/"

/-- buildVideoUrl from video.service.js: endpoint, category, slug of the
title, then the playlist filename. -/
def buildVideoUrl (bucket region category title : String) : String :=
  awsHost bucket region ++ category ++ "/" ++ toSafeSlug title ++
    "/output.m3u8"

/-- A manifest URL as a function of category and slug alone (plus the
fixed bucket and region configuration). -/
def manifestUrlOfSlug (bucket region category slug : String) : String :=
  awsHost bucket region ++ category ++ "/" ++ slug ++ "/output.m3u8"

/-! ## The convert-and-upload pipeline
(upload.service.js convertAndUpload, current.service.js
uploadTeaserAndConvert)

The external effects are recorded in an environment: the outcome of the
ffmpeg run (an error event, or an end event together with the files then
present in the output directory), the success of each S3 upload, and the
sequence of values the ffmpeg progress callback reported.  Directory
creation and the write of the input file are modelled as succeeding (the
claims under verification all concern runs that reach the transcode
step). -/

/-- Outcome of the ffmpeg invocation: the error event fired, or the end
event fired and readdirSync then returned the given file names. -/
inductive TranscodeResult where
  | err : TranscodeResult
  | ok (files : List String) : TranscodeResult
deriving DecidableEq

/-- Environment of one pipeline run. -/
structure RunEnv where
  transcode : TranscodeResult
  uploadOk : String → Bool
  progressReports : List (Option ℚ)

/-- Result value of the service call (or the error it throws). -/
inductive RunOutcome where
  | transcodeFailure
  | uploadFailure
  | success (s3Pfx : String) (fileCount : ℕ) (url : String)
deriving DecidableEq

/-- What a run leaves behind: its outcome, whether the scoped temporary
directory still exists on disk afterwards, and the object keys whose
uploads completed (Promise.all starts every upload, so siblings of a
failing upload still land in the store). -/
structure RunResult where
  outcome : RunOutcome
  tempDirExists : Bool
  uploadedKeys : List String
deriving DecidableEq

/-- convertAndUpload from upload.service.js.  The rm of the temp
directory is the last step of the function body and runs only after the
transcode promise and every upload promise resolved; a rejection at
either stage propagates to the caller before the cleanup line. -/
def convertAndUpload (bucket region category slug : String)
    (env : RunEnv) : RunResult :=
  match env.transcode with
  | .err =>
    { outcome := .transcodeFailure, tempDirExists := true, uploadedKeys := [] }
  | .ok files =>
    let pfx := category ++ "/" ++ slug
    let uploaded := (files.filter env.uploadOk).map (fun f => pfx ++ "/" ++ f)
    if files.all env.uploadOk then
      { outcome := .success pfx files.length
          (awsHost bucket region ++ pfx ++ "/output.m3u8"),
        tempDirExists := false, uploadedKeys := uploaded }
    else
      { outcome := .uploadFailure, tempDirExists := true,
        uploadedKeys := uploaded }

/-- TEASER_S3_PREFIX from current.service.js: the fixed destination of
every teaser run. -/
def teaserS3Dir : String := "short_films/teaser"

/-- uploadTeaserAndConvert from current.service.js: the same pipeline
with the fixed teaser destination in place of category/slug. -/
def uploadTeaserAndConvert (bucket region : String) (env : RunEnv) :
    RunResult :=
  match env.transcode with
  | .err =>
    { outcome := .transcodeFailure, tempDirExists := true, uploadedKeys := [] }
  | .ok files =>
    let uploaded := (files.filter env.uploadOk).map
      (fun f => teaserS3Dir ++ "/" ++ f)
    if files.all env.uploadOk then
      { outcome := .success teaserS3Dir files.length
          (awsHost bucket region ++ teaserS3Dir ++ "/output.m3u8"),
        tempDirExists := false, uploadedKeys := uploaded }
    else
      { outcome := .uploadFailure, tempDirExists := true,
        uploadedKeys := uploaded }

/-! ## The files ffmpeg produces when it honors its arguments
(-hls_segment_filename shot_%03d.ts, -start_number 0, output
output.m3u8) -/

/-- Zero padding of the %03d conversion. -/
def pad3 (n : ℕ) : String :=
  let s := toString n
  if s.length < 3 then String.mk (List.replicate (3 - s.length) '0') ++ s
  else s

/-- Segment file name number i under the shot_%03d.ts pattern. -/
def segFileName (i : ℕ) : String := "shot_" ++ pad3 i ++ ".ts"

/-- Output directory contents after a transcode that produced n segments:
the playlist plus the sequentially numbered segments starting at 0
(readdirSync lists the playlist first in lexicographic order). -/
def hlsOutputFiles (n : ℕ) : List String :=
  "output.m3u8" :: (List.range n).map segFileName

/-! ## Progress forwarding (upload.service.js lines 46-50, and the
identical callback in current.service.js) -/

/-- Math.round as JavaScript defines it: floor of the value plus one
half. -/
def jsRound (q : ℚ) : ℤ := ⌊q + 1/2⌋

/-- The ffmpeg progress handler: onProgress(Math.round(progress.percent))
guarded by the truthiness of progress.percent, so an absent or zero
percent is not forwarded and every other value is rounded and passed on
unchanged. -/
def forwardPercent (p : Option ℚ) : Option ℤ :=
  match p with
  | none => none
  | some q => if q = 0 then none else some (jsRound q)

/-! ## The SSE controller (video.controller.js uploadAndCreateVideo) -/

/-- One server-sent event, as the controller writes it. -/
inductive Ev where
  | progress (stage : String) (percent : ℤ)
  | complete
  | error
deriving DecidableEq

/-- The progress events the forwarding callback emits for a list of
reported values. -/
def forwardedEvents (reports : List (Option ℚ)) : List Ev :=
  reports.filterMap
    (fun r => (forwardPercent r).map (fun v => Ev.progress "converting" v))

/-- What one controller invocation produces: the event stream sent to the
client and whether createVideoService wrote the durable record. -/
structure CtrlResult where
  events : List Ev
  recordCreated : Bool
deriving DecidableEq

/-- uploadAndCreateVideo from video.controller.js, on the path where a
file was attached and the required fields are present: emit the initial
converting event, run convertAndUpload (whose callback emits the
forwarded progress events), then either emit saving/complete around the
createVideoService insert, or catch the thrown error and emit the error
event.  The DB insert itself is modelled as succeeding. -/
def uploadAndCreateVideo (bucket region category title : String)
    (env : RunEnv) : CtrlResult :=
  let slug := controllerSlug title
  let r := convertAndUpload bucket region category slug env
  match r.outcome with
  | .success _ _ _ =>
    { events := Ev.progress "converting" 0 ::
        (forwardedEvents env.progressReports ++
          [Ev.progress "saving" 100, Ev.complete]),
      recordCreated := true }
  | _ =>
    { events := Ev.progress "converting" 0 ::
        (forwardedEvents env.progressReports ++ [Ev.error]),
      recordCreated := false }

/-- Whether a run outcome is the success constructor. -/
def RunOutcome.isSuccess : RunOutcome → Bool
  | .success _ _ _ => true
  | _ => false

/-- The fileCount field the service returns on success. -/
def fileCountOf : RunOutcome → Option Nat
  | .success _ n _ => some n
  | _ => none

end Luminav

namespace Luminav

/-! ## Helper lemmas for the pipeline claims -/

theorem jsRound_bounds {q : ℚ} (h0 : 0 ≤ q) (h1 : q ≤ 100) :
    0 ≤ jsRound q ∧ jsRound q ≤ 100 := by
  unfold jsRound
  constructor
  · exact Int.le_floor.mpr (by push_cast; linarith)
  · have h : ⌊q + 1/2⌋ < 101 := by
      rw [Int.floor_lt]
      push_cast
      linarith
    omega

theorem forwarded_percent_bounds {reports : List (Option ℚ)}
    (hq : ∀ q : ℚ, some q ∈ reports → 0 ≤ q ∧ q ≤ 100) :
    ∀ st p, Ev.progress st p ∈ forwardedEvents reports →
      0 ≤ p ∧ p ≤ 100 := by
  intro st p hp
  unfold forwardedEvents at hp
  rw [List.mem_filterMap] at hp
  obtain ⟨r, hr, hmap⟩ := hp
  cases r with
  | none => simp [forwardPercent] at hmap
  | some q =>
    by_cases h0 : q = 0
    · simp [forwardPercent, h0] at hmap
    · simp [forwardPercent, h0] at hmap
      obtain ⟨hq0, hq100⟩ := hq q hr
      rw [← hmap.2]
      exact jsRound_bounds hq0 hq100

/-! ## Concrete environments used by the counterexamples -/

/-- A run whose ffmpeg invocation fires the error event. -/
def envTranscodeFail : RunEnv :=
  { transcode := .err, uploadOk := fun _ => true, progressReports := [] }

/-- A run whose transcode succeeds with one segment but whose uploads all
fail. -/
def envUploadFail : RunEnv :=
  { transcode := .ok (hlsOutputFiles 1), uploadOk := fun _ => false,
    progressReports := [] }

/-- A run during which the encoder callback reports 150 percent. -/
def env150 : RunEnv :=
  { transcode := .ok [], uploadOk := fun _ => true,
    progressReports := [some 150] }

/-- A standard one-segment run with every upload succeeding. -/
def envStd1 : RunEnv :=
  { transcode := .ok (hlsOutputFiles 1), uploadOk := fun _ => true,
    progressReports := [] }

/-- A run whose transcode completes with an empty output directory. -/
def envZeroOut : RunEnv :=
  { transcode := .ok [], uploadOk := fun _ => true, progressReports := [] }

/-! ## Claim theorems: workspace cleanup (C1) -/

/-- C1 counterexample: after a transcoder-failure run, and likewise after
an upload-failure run and a failed teaser run, the scoped temporary
directory still exists on disk — the cleanup line is only reached on the
success path, so the claim that the directory is removed on every exit
path is false. -/
theorem workspace_left_on_failed_run_cex :
    (convertAndUpload "b" "r" "short_films" "film"
      envTranscodeFail).tempDirExists = true ∧
    (convertAndUpload "b" "r" "short_films" "film"
      envUploadFail).tempDirExists = true ∧
    (uploadTeaserAndConvert "b" "r" envTranscodeFail).tempDirExists =
      true := by
  decide

/-- C1 amended: the scoped temporary workspace directory is removed
exactly on the success path; after a transcoder-failure or upload-failure
run it still exists on disk, in both convertAndUpload and
uploadTeaserAndConvert. -/
theorem workspace_removed_iff_run_succeeded
    (bucket region category slug : String) (env : RunEnv) :
    (convertAndUpload bucket region category slug env).tempDirExists =
      !((convertAndUpload bucket region category slug
          env).outcome).isSuccess ∧
    (uploadTeaserAndConvert bucket region env).tempDirExists =
      !((uploadTeaserAndConvert bucket region env).outcome).isSuccess := by
  rcases env with ⟨tr, up, pr⟩
  cases tr with
  | err => constructor <;> rfl
  | ok files =>
    by_cases h : files.all up = true
    · constructor <;>
        simp [convertAndUpload, uploadTeaserAndConvert, h,
          RunOutcome.isSuccess]
    · constructor <;>
        simp [convertAndUpload, uploadTeaserAndConvert, h,
          RunOutcome.isSuccess]

/-! ## Claim theorems: durable record only after full upload (C3) -/

/-- C3: the controller writes the durable asset record exactly when the
transcode completed and every file upload succeeded; if the transcode or
any single upload fails, no record is created for that run. -/
theorem record_written_iff_transcode_and_uploads_succeed
    (bucket region category title : String) (env : RunEnv) :
    (uploadAndCreateVideo bucket region category title
        env).recordCreated = true ↔
      ∃ files, env.transcode = .ok files ∧
        files.all env.uploadOk = true := by
  rcases env with ⟨tr, up, pr⟩
  cases tr with
  | err => simp [uploadAndCreateVideo, convertAndUpload]
  | ok files =>
    by_cases h : files.all up = true
    · simp [uploadAndCreateVideo, convertAndUpload, h]
      exact List.all_eq_true.mp h
    · simp [uploadAndCreateVideo, convertAndUpload, h]
      rw [List.all_eq_true] at h
      push_neg at h
      obtain ⟨x, hx, hfx⟩ := h
      exact ⟨x, hx, by simpa using hfx⟩

/-! ## Claim theorems: progress percent range (C4) -/

/-- C4 counterexample: when the encoder callback reports 150, the
pipeline emits a progress event with percent 150, outside [0, 100] — the
forwarding does not clamp the reported value, so the claim is false. -/
theorem progress_percent_out_of_range_cex :
    Ev.progress "converting" 150 ∈
      (uploadAndCreateVideo "b" "r" "c" "t" env150).events ∧
    ¬((150:ℤ) ≤ 100) := by
  constructor
  · have h : forwardPercent (some 150) = some 150 := by
      show (if (150:ℚ) = 0 then none else some (jsRound 150)) = some 150
      rw [if_neg (by norm_num)]
      congr 1
      show ⌊(150:ℚ) + 1/2⌋ = 150
      rw [Int.floor_eq_iff]
      constructor <;> norm_num
    simp [uploadAndCreateVideo, convertAndUpload, env150, forwardedEvents, h]
  · decide

/-- C4 amended: the pipeline forwards the rounded encoder value
unmodified, with no clamping; if every value the encoder callback
reports lies within [0, 100], then every percent value emitted in a
progress event lies within [0, 100]. -/
theorem progress_percent_in_range_of_reports_in_range
    (bucket region category title : String) (env : RunEnv)
    (hq : ∀ q : ℚ, some q ∈ env.progressReports → 0 ≤ q ∧ q ≤ 100) :
    ∀ st p, Ev.progress st p ∈
        (uploadAndCreateVideo bucket region category title env).events →
      0 ≤ p ∧ p ≤ 100 := by
  intro st p hp
  rcases env with ⟨tr, up, pr⟩
  have hfw := forwarded_percent_bounds hq st p
  cases tr with
  | err =>
    simp only [uploadAndCreateVideo, convertAndUpload, List.mem_cons,
      List.mem_append, List.mem_singleton, Ev.progress.injEq] at hp
    rcases hp with ⟨h1, h2⟩ | h2 | h3
    · omega
    · exact hfw h2
    · exact absurd h3 (by simp)
  | ok files =>
    by_cases h : files.all up = true
    · simp only [uploadAndCreateVideo, convertAndUpload, h, if_true,
        List.mem_cons, List.mem_append, List.mem_singleton,
        Ev.progress.injEq] at hp
      rcases hp with ⟨h1, h2⟩ | h2 | h3 | h4
      · omega
      · exact hfw h2
      · omega
      · exact absurd h4 (by simp)
    · have hfalse : files.all up = false := by simpa using h
      simp only [uploadAndCreateVideo, convertAndUpload, hfalse,
        Bool.false_eq_true, if_false, List.mem_cons, List.mem_append,
        List.mem_singleton, Ev.progress.injEq] at hp
      rcases hp with ⟨h1, h2⟩ | h2 | h3
      · omega
      · exact hfw h2
      · exact absurd h3 (by simp)

/-- Witness for the amended C4 theorem at a run whose encoder reports 42
percent. -/
theorem progress_percent_in_range_witness : 0 ≤ (42:ℤ) ∧ (42:ℤ) ≤ 100 := by
  have h42 : forwardPercent (some 42) = some 42 := by
    show (if (42:ℚ) = 0 then none else some (jsRound 42)) = some 42
    rw [if_neg (by norm_num)]
    congr 1
    show ⌊(42:ℚ) + 1/2⌋ = 42
    rw [Int.floor_eq_iff]
    constructor <;> norm_num
  refine progress_percent_in_range_of_reports_in_range "b" "r" "c" "t"
    ⟨.ok [], fun _ => true, [some 42]⟩ ?_ "converting" 42 ?_
  · intro q hq
    simp at hq
    subst hq
    norm_num
  · simp [uploadAndCreateVideo, convertAndUpload, forwardedEvents, h42]

/-! ## Claim theorems: object-store key layout (C5) -/

/-- C5 counterexample: a successful one-segment run under category
short_films and slug my_cool_film publishes the keys
short_films/my_cool_film/output.m3u8 and
short_films/my_cool_film/shot_000.ts; neither
short_films/my_cool_film/output.manifest nor
short_films/my_cool_film/segment_000.ts is among the published keys, so
the claimed file names are false. -/
theorem object_key_layout_cex :
    (convertAndUpload "b" "r" "short_films" "my_cool_film"
        envStd1).uploadedKeys =
      ["short_films/my_cool_film/output.m3u8",
       "short_films/my_cool_film/shot_000.ts"] ∧
    "short_films/my_cool_film/output.manifest" ∉
      (convertAndUpload "b" "r" "short_films" "my_cool_film"
        envStd1).uploadedKeys ∧
    "short_films/my_cool_film/segment_000.ts" ∉
      (convertAndUpload "b" "r" "short_films" "my_cool_film"
        envStd1).uploadedKeys := by
  decide

/-- C5 amended: a successful run publishes exactly the transcoder's
output files under the prefix category/slug — the playlist output.m3u8
plus segments shot_000.ts, shot_001.ts, ... sequentially zero-padded and
starting at 0 — and a teaser run publishes the same layout under the
fixed prefix short_films/teaser instead of a per-title slug. -/
theorem object_key_layout_amended
    (bucket region category slug : String) (n : ℕ) (env : RunEnv)
    (htr : env.transcode = .ok (hlsOutputFiles n))
    (hup : ∀ f, env.uploadOk f = true) :
    (convertAndUpload bucket region category slug env).uploadedKeys =
      (hlsOutputFiles n).map
        (fun f => category ++ "/" ++ slug ++ "/" ++ f) ∧
    (uploadTeaserAndConvert bucket region env).uploadedKeys =
      (hlsOutputFiles n).map (fun f => teaserS3Dir ++ "/" ++ f) ∧
    teaserS3Dir = "short_films/teaser" := by
  rcases env with ⟨tr, up, pr⟩
  simp only at htr
  subst htr
  have hall : (hlsOutputFiles n).all up = true :=
    List.all_eq_true.mpr (fun f _ => hup f)
  have hfil : (hlsOutputFiles n).filter up = hlsOutputFiles n :=
    filter_of_forall_true (fun f _ => hup f)
  refine ⟨?_, ?_, rfl⟩
  · simp [convertAndUpload, hall, hfil]
  · simp [uploadTeaserAndConvert, hall, hfil]

/-- Witness for the amended C5 theorem at a two-segment run. -/
theorem object_key_layout_witness :
    (convertAndUpload "bkt" "reg" "short_films" "demo"
        ⟨.ok (hlsOutputFiles 2), fun _ => true, []⟩).uploadedKeys =
      (hlsOutputFiles 2).map
        (fun f => "short_films" ++ "/" ++ "demo" ++ "/" ++ f) ∧
    (uploadTeaserAndConvert "bkt" "reg"
        ⟨.ok (hlsOutputFiles 2), fun _ => true, []⟩).uploadedKeys =
      (hlsOutputFiles 2).map (fun f => teaserS3Dir ++ "/" ++ f) ∧
    teaserS3Dir = "short_films/teaser" :=
  object_key_layout_amended "bkt" "reg" "short_films" "demo" 2
    ⟨.ok (hlsOutputFiles 2), fun _ => true, []⟩ rfl (fun _ => rfl)

/-! ## Claim theorems: zero-output transcode (C6) -/

/-- C6 counterexample: a run whose transcode completes with an empty
output directory is not treated as a failure — the service returns the
success outcome with fileCount 0 and the controller still writes the
durable record, so the claim is false. -/
theorem zero_output_success_cex :
    ((convertAndUpload "b" "r" "cat" "slug" envZeroOut).outcome).isSuccess =
      true ∧
    fileCountOf (convertAndUpload "b" "r" "cat" "slug"
      envZeroOut).outcome = some 0 ∧
    (convertAndUpload "b" "r" "cat" "slug" envZeroOut).uploadedKeys = [] ∧
    (uploadAndCreateVideo "b" "r" "cat" "t" envZeroOut).recordCreated =
      true ∧
    ((uploadTeaserAndConvert "b" "r" envZeroOut).outcome).isSuccess =
      true := by
  decide

/-- C6 amended: a run in which the transcode step completes but the
output directory contains zero files proceeds as a success: nothing is
uploaded, yet both services report the success outcome with fileCount 0,
the controller writes the durable record, and the terminal event is
complete. -/
theorem zero_output_run_reports_success
    (bucket region category title slug : String)
    (up : String → Bool) (pr : List (Option ℚ)) :
    ((convertAndUpload bucket region category slug
        ⟨.ok [], up, pr⟩).outcome).isSuccess = true ∧
    fileCountOf (convertAndUpload bucket region category slug
        ⟨.ok [], up, pr⟩).outcome = some 0 ∧
    (convertAndUpload bucket region category slug
        ⟨.ok [], up, pr⟩).uploadedKeys = [] ∧
    (uploadAndCreateVideo bucket region category title
        ⟨.ok [], up, pr⟩).recordCreated = true ∧
    (uploadAndCreateVideo bucket region category title
        ⟨.ok [], up, pr⟩).events.getLast? = some Ev.complete ∧
    ((uploadTeaserAndConvert bucket region
        ⟨.ok [], up, pr⟩).outcome).isSuccess = true := by
  refine ⟨rfl, rfl, rfl, rfl, ?_, rfl⟩
  show (Ev.progress "converting" 0 ::
      (forwardedEvents pr ++
        [Ev.progress "saving" 100, Ev.complete])).getLast? =
    some Ev.complete
  have h : Ev.progress "converting" 0 ::
      (forwardedEvents pr ++ [Ev.progress "saving" 100, Ev.complete]) =
      (Ev.progress "converting" 0 ::
        (forwardedEvents pr ++ [Ev.progress "saving" 100])).concat
        Ev.complete := by
    simp [List.concat_eq_append, List.append_assoc]
  rw [h, List.concat_eq_append, List.getLast?_concat]

/-! ## Claim theorems: slug derivation -/

/-- C8: for every title, the slug used as the storage path component
equals the spec's trim/lowercase/whitespace-to-underscore/strip
derivation (and the controller's inline chain agrees with the service
helper); the example title "My Cool Film!" maps to my_cool_film; and the
durable record's manifest URL is derivable from category and slug alone
as the fixed endpoint followed by the manifest filename. -/
theorem slug_matches_spec_and_manifest_url_derivable
    (bucket region category title : String) :
    toSafeSlug title = specSlug title ∧
    controllerSlug title = toSafeSlug title ∧
    toSafeSlug "My Cool Film!" = "my_cool_film" ∧
    buildVideoUrl bucket region category title =
      manifestUrlOfSlug bucket region category (toSafeSlug title) :=
  ⟨rfl, rfl, by decide, rfl⟩

/-- C9: the slug derivation is idempotent — applying the
trim/lowercase/whitespace-to-underscore/strip chain to its own output
returns the output unchanged. -/
theorem toSafeSlug_idempotent (s : String) :
    toSafeSlug (toSafeSlug s) = toSafeSlug s :=
  congrArg String.mk (toSafeSlugL_idem s.data)

/-! ## The singleton current-film record
(current.service.js createCurrentFilm, current.controller.js
addCurrentFilm)

The relational store is an external collaborator; following the spec it
is modelled as holding a fixed uniqueness key on lock_col, so the state
of the current_film table is zero or one row and the INSERT with
lock_col = 1 fails with the driver code ER_DUP_ENTRY exactly when a row
already exists. -/

/-- A current_film row as the service shapes it. -/
structure CurrentFilmRow where
  id : Nat
  title : String
  description : String
  videoUrl : String
  teaserUrl : String
deriving DecidableEq

/-- Driver-level error code carried on err.code by the MySQL client. -/
inductive MySqlCode where
  | ER_DUP_ENTRY
  | otherCode
deriving DecidableEq

/-- INSERT INTO current_film (lock_col, ...) VALUES (1, ...): with a row
present the uniqueness key on lock_col rejects the insert with
ER_DUP_ENTRY; with the slot empty the row is created under the generated
insertId. -/
def dbInsertCurrentFilm (st : Option CurrentFilmRow)
    (title description videoUrl teaserUrl : String) (insertId : Nat) :
    Option CurrentFilmRow × Except MySqlCode Nat :=
  match st with
  | some r => (some r, .error .ER_DUP_ENTRY)
  | none =>
    (some ⟨insertId, title, description, videoUrl, teaserUrl⟩,
      .ok insertId)

/-- Error thrown by createCurrentFilm: the structured ALREADY_EXISTS
error, or the untranslated driver error rethrown as-is. -/
inductive SvcErr where
  | alreadyExists (message : String)
  | generic (code : MySqlCode)
deriving DecidableEq

/-- The code field of the thrown error. -/
def codeOf : SvcErr → String
  | .alreadyExists _ => "ALREADY_EXISTS"
  | .generic _ => "GENERIC_DB_ERROR"

/-- The message of the structured duplicate error in
current.service.js. -/
def ALREADY_EXISTS_MSG : String :=
  "A current film already exists. Delete it before adding a new one."

/-- createCurrentFilm from current.service.js: insert, translate
ER_DUP_ENTRY into the structured ALREADY_EXISTS error, rethrow anything
else. -/
def createCurrentFilm (st : Option CurrentFilmRow)
    (title description videoUrl teaserUrl : String) (insertId : Nat) :
    Option CurrentFilmRow × Except SvcErr CurrentFilmRow :=
  match dbInsertCurrentFilm st title description videoUrl teaserUrl
      insertId with
  | (st2, .ok newId) =>
    (st2, .ok ⟨newId, title, description, videoUrl, teaserUrl⟩)
  | (st2, .error .ER_DUP_ENTRY) =>
    (st2, .error (.alreadyExists ALREADY_EXISTS_MSG))
  | (st2, .error c) => (st2, .error (.generic c))

/-- HTTP outcome of the addCurrentFilm controller. -/
inductive ApiResp where
  | created (row : CurrentFilmRow)
  | badRequest (missing : List String)
  | conflict (message : String)
  | serverError
deriving DecidableEq

/-- The HTTP status the controller writes for each outcome. -/
def statusOf : ApiResp → Nat
  | .created _ => 201
  | .badRequest _ => 400
  | .conflict _ => 409
  | .serverError => 500

/-- String.prototype.trim on a Lean String. -/
def jsTrimS (s : String) : String := String.mk (jsTrim s.data)

/-- addCurrentFilm from current.controller.js: collect the required
fields whose trimmed value is empty; with none missing, call the service
on the trimmed fields and map its outcome (ALREADY_EXISTS to the 409
conflict response, any other error to the 500 response). -/
def addCurrentFilm (st : Option CurrentFilmRow)
    (title description videoUrl teaserUrl : String) (insertId : Nat) :
    Option CurrentFilmRow × ApiResp :=
  let missing :=
    (if jsTrimS title = "" then ["title"] else []) ++
    (if jsTrimS description = "" then ["description"] else []) ++
    (if jsTrimS videoUrl = "" then ["videoUrl"] else []) ++
    (if jsTrimS teaserUrl = "" then ["teaserUrl"] else [])
  if missing ≠ [] then (st, .badRequest missing)
  else
    match createCurrentFilm st (jsTrimS title) (jsTrimS description)
        (jsTrimS videoUrl) (jsTrimS teaserUrl) insertId with
    | (st2, .ok row) => (st2, .created row)
    | (st2, .error (.alreadyExists m)) => (st2, .conflict m)
    | (st2, .error (.generic _)) => (st2, .serverError)

/-! ## Claim theorems: duplicate singleton create (C2) -/

/-- C2: when a current-film row already exists, createCurrentFilm yields
the typed outcome whose code is exactly ALREADY_EXISTS (never a generic
failure), the controller maps it to the 409 conflict response, and the
stored record is unchanged from the first successful create. -/
theorem duplicate_current_film_conflict (row : CurrentFilmRow)
    (title description videoUrl teaserUrl : String) (insertId : Nat)
    (h1 : jsTrimS title ≠ "") (h2 : jsTrimS description ≠ "")
    (h3 : jsTrimS videoUrl ≠ "") (h4 : jsTrimS teaserUrl ≠ "") :
    createCurrentFilm (some row) (jsTrimS title) (jsTrimS description)
        (jsTrimS videoUrl) (jsTrimS teaserUrl) insertId =
      (some row, .error (.alreadyExists ALREADY_EXISTS_MSG)) ∧
    codeOf (.alreadyExists ALREADY_EXISTS_MSG) = "ALREADY_EXISTS" ∧
    addCurrentFilm (some row) title description videoUrl teaserUrl
        insertId = (some row, .conflict ALREADY_EXISTS_MSG) ∧
    statusOf (.conflict ALREADY_EXISTS_MSG) = 409 := by
  refine ⟨rfl, rfl, ?_, rfl⟩
  unfold addCurrentFilm
  simp [h1, h2, h3, h4, createCurrentFilm, dbInsertCurrentFilm]

/-- Witness for the C2 theorem at a concrete existing row and concrete
second-create data. -/
theorem duplicate_current_film_conflict_witness :
    createCurrentFilm (some ⟨1, "a", "b", "c", "d"⟩) (jsTrimS "t")
        (jsTrimS "de") (jsTrimS "v") (jsTrimS "u") 2 =
      (some ⟨1, "a", "b", "c", "d"⟩,
        .error (.alreadyExists ALREADY_EXISTS_MSG)) ∧
    codeOf (.alreadyExists ALREADY_EXISTS_MSG) = "ALREADY_EXISTS" ∧
    addCurrentFilm (some ⟨1, "a", "b", "c", "d"⟩) "t" "de" "v" "u" 2 =
      (some ⟨1, "a", "b", "c", "d"⟩, .conflict ALREADY_EXISTS_MSG) ∧
    statusOf (.conflict ALREADY_EXISTS_MSG) = 409 :=
  duplicate_current_film_conflict ⟨1, "a", "b", "c", "d"⟩ "t" "de" "v" "u"
    2 (by decide) (by decide) (by decide) (by decide)

/-! ## The durable-store call layer (src/config/db.config.js)

The exported query wrapper retries once on a transient connection error;
the current-film, video and admin services do not call it — they call
db.query / db.execute directly on the pool.  A call is modelled by the
outcomes its successive driver attempts would have. -/

/-- Driver error codes the wrapper distinguishes. -/
inductive SqlErrCode where
  | ECONNRESET
  | PROTOCOL_CONNECTION_LOST
  | otherSqlErr
deriving DecidableEq

/-- The transient connection-reset condition checked by the wrapper. -/
def isTransientCode : SqlErrCode → Bool
  | .ECONNRESET => true
  | .PROTOCOL_CONNECTION_LOST => true
  | .otherSqlErr => false

/-- The exported query wrapper of db.config.js: run the pool call; on a
transient connection error run it once more and return that second
outcome as-is (so a second failure propagates); rethrow any other
error. -/
def queryWrapper {α : Type} (attempts : Nat → Except SqlErrCode α) :
    Except SqlErrCode α :=
  match attempts 0 with
  | .ok r => .ok r
  | .error e => if isTransientCode e then attempts 1 else .error e

/-- A direct db.query / db.execute call on the pool, as the
current-film, video and admin services make them: no wrapper, the first
attempt's outcome is the caller's outcome. -/
def poolDirect {α : Type} (attempts : Nat → Except SqlErrCode α) :
    Except SqlErrCode α :=
  attempts 0

/-- A call whose first driver attempt hits a connection reset and whose
second attempt would succeed. -/
def attemptsTransientThenOk : Nat → Except SqlErrCode Nat :=
  fun i => if i = 0 then .error .ECONNRESET else .ok 7

/-! ## Claim theorems: transient-error retry (C7) -/

/-- C7 counterexample: a direct pool call (the form every current-film,
video and admin durable-store call takes) whose first attempt fails with
a connection reset surfaces that failure immediately, even though a
retry would have succeeded — so the claim that every durable-store call
is retried exactly once on a transient error is false. -/
theorem direct_pool_call_not_retried_cex :
    poolDirect attemptsTransientThenOk = .error .ECONNRESET ∧
    queryWrapper attemptsTransientThenOk = .ok 7 ∧
    poolDirect attemptsTransientThenOk ≠
      queryWrapper attemptsTransientThenOk :=
  ⟨rfl, rfl, fun h => by cases h⟩

/-- C7 amended: only durable-store calls made through the exported query
wrapper (the image-service calls) are retried — exactly once, and only
on the two transient connection error codes, with the second attempt's
outcome surfaced as-is; calls made directly on the pool surface the
first failure with no retry. -/
theorem transient_retry_only_in_wrapper {α : Type}
    (attempts : Nat → Except SqlErrCode α) (e : SqlErrCode)
    (h : attempts 0 = .error e) (ht : isTransientCode e = true) :
    queryWrapper attempts = attempts 1 ∧
    poolDirect attempts = .error e := by
  unfold queryWrapper poolDirect
  rw [h]
  simp [ht]

/-- Witness for the amended C7 theorem at the concrete
reset-then-succeed call. -/
theorem transient_retry_only_in_wrapper_witness :
    queryWrapper attemptsTransientThenOk = attemptsTransientThenOk 1 ∧
    poolDirect attemptsTransientThenOk = .error .ECONNRESET :=
  transient_retry_only_in_wrapper attemptsTransientThenOk .ECONNRESET
    rfl rfl

/-! ## Admin login (admin.controller.js adminLogin, admin.service.js
verifyPassword)

bcrypt.compare is an external cryptographic primitive; it is abstracted
as an arbitrary boolean function passed to the model.  The claim's
"always evaluates false" rests on the cryptographic fact that no
password bcrypt-matches the fixed dummy digest, carried as an explicit
hypothesis on that function. -/

/-- An admins table row. -/
structure AdminRow where
  id : Nat
  email : String
  password : String
deriving DecidableEq

/-- The fixed dummy hash of admin.service.js. -/
def DUMMY_HASH : String :=
  "$2b$10$abcdefghijklmnopqrstuvuXXXXXXXXXXXXXXXXXXXXXXXXXXXXXXX"

/-- findAdminByEmail: SELECT ... WHERE email = ? LIMIT 1, undefined when
no row matches. -/
def findAdminByEmail (store : List AdminRow) (email : String) :
    Option AdminRow :=
  (store.filter (fun a => a.email == email)).head?

/-- verifyPassword from admin.service.js: bcrypt-compare the plain
password against the stored hash, or against DUMMY_HASH when no admin
row was found. -/
def verifyPassword (compare : String → String → Bool)
    (plainPassword : String) (hashedPassword : Option String) : Bool :=
  compare plainPassword (hashedPassword.getD DUMMY_HASH)

/-- The hash argument verifyPassword hands to bcrypt.compare. -/
def hashComparedAgainst (hashedPassword : Option String) : String :=
  hashedPassword.getD DUMMY_HASH

/-- The character class of the login email regex, ASCII model: anything
but whitespace and the at sign. -/
def emailChar (c : Char) : Bool := !(isWs c) && !(c == '@')

/-- Whether the domain part contains a dot with at least one character
on each side, as the backtracking regex tail requires. -/
def hasInnerDot (d : List Char) : Bool :=
  (List.range d.length).any
    (fun i => (d.getD i ' ' == '.') && decide (1 ≤ i) &&
      decide (i + 1 < d.length))

/-- The basic email shape check of the controller: exactly one at sign,
a nonempty local part and a nonempty domain of email characters, and a
dot inside the domain. -/
def emailShapeOk (l : List Char) : Bool :=
  (l.count '@' == 1) &&
  (let i := l.indexOf '@'
   let lp := l.take i
   let dom := l.drop (i + 1)
   (!(lp.isEmpty)) && lp.all emailChar && (!(dom.isEmpty)) &&
     dom.all emailChar && hasInnerDot dom)

/-- The controller's sanitised email: trimmed and lowercased. -/
def normEmail (raw : String) : String :=
  String.mk ((jsTrim raw.data).map asciiToLower)

/-- The controller's sanitised password: trimmed. -/
def normPw (raw : String) : String := String.mk (jsTrim raw.data)

/-- HTTP outcome of the login controller. -/
inductive LoginResp where
  | badRequest (message : String)
  | unauthorized (message : String)
  | loggedIn (id : Nat) (email : String)
deriving DecidableEq

/-- adminLogin from admin.controller.js: presence validation, sanitise,
email shape check, admin lookup, unconditional verifyPassword, then the
deliberately unified 401 for both a missing email and a wrong
password. -/
def adminLogin (compare : String → String → Bool)
    (store : List AdminRow) (rawEmail rawPassword : String) : LoginResp :=
  if rawEmail = "" ∨ rawPassword = "" then
    .badRequest "Email and password are required."
  else
    let email := normEmail rawEmail
    let password := normPw rawPassword
    if email = "" ∨ password = "" then
      .badRequest "Email and password cannot be blank."
    else if !(emailShapeOk email.data) then
      .badRequest "Enter a valid email address."
    else
      let admin := findAdminByEmail store email
      let isMatch := verifyPassword compare password
        (admin.map (fun a => a.password))
      match admin with
      | none => .unauthorized "Invalid credentials."
      | some a =>
        if isMatch then .loggedIn a.id a.email
        else .unauthorized "Invalid credentials."

/-- The hash the login's verification step compares against, on the
path that reaches it. -/
def loginHashCompared (store : List AdminRow)
    (rawEmail rawPassword : String) : Option String :=
  if rawEmail = "" ∨ rawPassword = "" then none
  else if normEmail rawEmail = "" ∨ normPw rawPassword = "" then none
  else if !(emailShapeOk (normEmail rawEmail).data) then none
  else
    some (hashComparedAgainst
      ((findAdminByEmail store (normEmail rawEmail)).map
        (fun a => a.password)))

/-! ## Claim theorems: login email enumeration resistance (C10) -/

/-- C10: for a login request whose email matches no stored admin, the
verification step still runs the bcrypt comparison against the fixed
dummy hash, that comparison evaluates false (no password matches the
dummy digest), and the response is the same 401 Invalid credentials
outcome produced for an existing email with a wrong password. -/
theorem login_no_email_enumeration (compare : String → String → Bool)
    (store store2 : List AdminRow) (rawEmail rawPassword : String)
    (a : AdminRow) (h1 : rawEmail ≠ "") (h2 : rawPassword ≠ "")
    (h3 : normEmail rawEmail ≠ "") (h4 : normPw rawPassword ≠ "")
    (h5 : emailShapeOk (normEmail rawEmail).data = true)
    (h6 : findAdminByEmail store (normEmail rawEmail) = none)
    (h7 : findAdminByEmail store2 (normEmail rawEmail) = some a)
    (h8 : compare (normPw rawPassword) a.password = false)
    (hd : ∀ p, compare p DUMMY_HASH = false) :
    adminLogin compare store rawEmail rawPassword =
      .unauthorized "Invalid credentials." ∧
    loginHashCompared store rawEmail rawPassword = some DUMMY_HASH ∧
    verifyPassword compare (normPw rawPassword) none = false ∧
    adminLogin compare store rawEmail rawPassword =
      adminLogin compare store2 rawEmail rawPassword := by
  have hA : adminLogin compare store rawEmail rawPassword =
      .unauthorized "Invalid credentials." := by
    unfold adminLogin
    simp [h1, h2, h3, h4, h5, h6]
  have hB : adminLogin compare store2 rawEmail rawPassword =
      .unauthorized "Invalid credentials." := by
    unfold adminLogin
    simp [h1, h2, h3, h4, h5, h7, verifyPassword, h8]
  refine ⟨hA, ?_, ?_, hA.trans hB.symm⟩
  · unfold loginHashCompared
    simp [h1, h2, h3, h4, h5, h6, hashComparedAgainst]
  · simp [verifyPassword, hd]

/-- Witness for the C10 theorem: empty store versus a store holding the
looked-up email, an uppercase raw email that sanitises onto it, and a
comparison function that never matches. -/
theorem login_no_email_enumeration_witness :
    adminLogin (fun _ _ => false) [] "A@b.cd" " pw " =
      .unauthorized "Invalid credentials." ∧
    loginHashCompared [] "A@b.cd" " pw " = some DUMMY_HASH ∧
    verifyPassword (fun _ _ => false) (normPw " pw ") none = false ∧
    adminLogin (fun _ _ => false) [] "A@b.cd" " pw " =
      adminLogin (fun _ _ => false) [⟨1, "a@b.cd", "h1"⟩] "A@b.cd"
        " pw " :=
  login_no_email_enumeration (fun _ _ => false) []
    [⟨1, "a@b.cd", "h1"⟩] "A@b.cd" " pw " ⟨1, "a@b.cd", "h1"⟩
    (by decide) (by decide) (by decide) (by decide) (by decide) rfl
    (by decide) rfl (fun _ => rfl)

end Luminav
